import Mathlib

/-!
Shallow embedding of the prompt-optimizer core: the session data model
(`domain/models.py`), the template renderer (`prompts/manager.py`), the stage
engine (`state_machine/engine.py`), the harmonizer (`pipelines/harmonizer.py`)
and the LLM clients (`llm/client.py`). Machine integers are `Nat`; fallible
Python code (code that may raise) is embedded with `Except String`; in-place
mutation of the session object is embedded as explicit state passing, with the
post-call state returned alongside the raised-or-returned outcome.
-/

namespace PromptOptimizer

/-- The ordered `OptimizationStep` enumeration from `domain/models.py`. -/
inductive OptimizationStep where
  | user_intent
  | role
  | objective
  | context
  | audience
  | key_points
  | constraints
  | output
  | harmonization
  | final_output
deriving DecidableEq, Repr

/-- The `.value` of each enum member, exactly the strings in the source. -/
def OptimizationStep.value : OptimizationStep → String
  | .user_intent => "user_intent"
  | .role => "role"
  | .objective => "objective"
  | .context => "context"
  | .audience => "audience"
  | .key_points => "key_points"
  | .constraints => "constraints"
  | .output => "output"
  | .harmonization => "harmonization"
  | .final_output => "final_output"

/-- Position of a member in the declaration order of the enumeration. -/
def OptimizationStep.idx : OptimizationStep → Nat
  | .user_intent => 0
  | .role => 1
  | .objective => 2
  | .context => 3
  | .audience => 4
  | .key_points => 5
  | .constraints => 6
  | .output => 7
  | .harmonization => 8
  | .final_output => 9

/-- A Python `dict[str, str]`: insertion-ordered association list with unique
keys kept by construction through `dset`. -/
abbrev StrDict := List (String × String)

/-- Python dict assignment `d[k] = v`: overwrite in place when the key exists
(keeping its position), append otherwise. -/
def dset : StrDict → String → String → StrDict
  | [], k, v => [(k, v)]
  | kv :: rest, k, v =>
      if kv.1 = k then (k, v) :: rest else kv :: dset rest k v

/-- Python dict lookup `d.get(k)`. -/
def dget : StrDict → String → Option String
  | [], _ => none
  | kv :: rest, k => if kv.1 = k then some kv.2 else dget rest k

/-- The integer counters of `TokenUsage` (`domain/models.py`). The `cost_usd`
float field is `0.0` at every construction site in the source and is carried
here only in serialized form. -/
structure TokenUsage where
  prompt_tokens : Nat := 0
  completion_tokens : Nat := 0
  cached_tokens : Nat := 0
deriving DecidableEq, Repr

/-- Derived `total_tokens` property of `TokenUsage`. -/
def TokenUsage.total_tokens (u : TokenUsage) : Nat :=
  u.prompt_tokens + u.completion_tokens + u.cached_tokens

/-- `AnalysisResult` from `domain/models.py`. The `timestamp` field is an
opaque wall-clock token (a `datetime` in Python), never inspected by the core;
it defaults to `0` here where Python defaults to `datetime.utcnow()`. -/
structure AnalysisResult where
  step : OptimizationStep
  summary : String
  details : StrDict := []
  timestamp : Nat := 0
deriving DecidableEq, Repr

/-- `PromptSession` from `domain/models.py`. `session_id` is an opaque token
standing for the `UUID` and `created_at` for the `datetime`; both default to
`0` where Python draws fresh opaque values. -/
structure PromptSession where
  session_id : Nat := 0
  created_at : Nat := 0
  current_step : OptimizationStep := .user_intent
  completed_steps : List OptimizationStep := []
  parameters : StrDict := []
  analysis_history : List AnalysisResult := []
  token_usage : Option TokenUsage := none
deriving DecidableEq, Repr

/-- `PromptSession.is_complete`. -/
def PromptSession.is_complete (s : PromptSession) : Bool :=
  s.current_step = OptimizationStep.final_output

/-- `PromptSession.record_analysis`: append to the history, append the step to
`completed_steps` unless already present, and set `current_step`. -/
def PromptSession.record_analysis (s : PromptSession) (result : AnalysisResult) :
    PromptSession :=
  { s with
    analysis_history := s.analysis_history ++ [result],
    completed_steps :=
      if result.step ∈ s.completed_steps then s.completed_steps
      else s.completed_steps ++ [result.step],
    current_step := result.step }

/-- A sequence of `record_analysis` calls on a session. -/
def PromptSession.record_all (s : PromptSession) (results : List AnalysisResult) :
    PromptSession :=
  results.foldl PromptSession.record_analysis s

/-! ### Python values and `json.dumps` (used by the `tojson` template filter) -/

/-- A Python runtime value as it appears in the data handed to the `tojson`
filter of `prompts/manager.py` (which is plain `json.dumps`): JSON-encodable
scalars and containers, plus the two non-JSON-encodable object kinds that
occur in `PromptSession.model_dump()` output, `UUID` and `datetime`
(represented by opaque tokens). -/
inductive PyVal where
  | pystr (s : String)
  | pyint (n : Int)
  | pynone
  | pyuuid (token : Nat)
  | pydatetime (token : Nat)
  | pylist (xs : List PyVal)
  | pydict (kvs : List (String × PyVal))

/-- JSON escaping of one character, as `json.dumps` performs it for the
character set that occurs in this repository. -/
def jsonEscapeChar (c : Char) : List Char :=
  if c = '"' then ['\\', '"']
  else if c = '\\' then ['\\', '\\']
  else if c = '\n' then ['\\', 'n']
  else if c = '\t' then ['\\', 't']
  else if c = '\r' then ['\\', 'r']
  else [c]

/-- JSON encoding of a Python string, double-quoted and escaped. -/
def jsonEncodeString (s : String) : String :=
  String.mk ('"' :: ((s.data.map jsonEscapeChar).flatten ++ ['"']))

/-- Join already-encoded items with the default `json.dumps` item separator. -/
def joinComma (parts : List String) : String :=
  String.intercalate ", " parts

/-- Encode each element of a list with `f`, propagating the first raised
error, as the `json.dumps` C traversal does. -/
def encodeEach (f : PyVal → Except String String) :
    List PyVal → Except String (List String)
  | [] => .ok []
  | x :: xs => do
      let s ← f x
      let rest ← encodeEach f xs
      .ok (s :: rest)

/-- Encode each key-value pair of a dict with `f` on the value, propagating
the first raised error. -/
def encodeEachKV (f : PyVal → Except String String) :
    List (String × PyVal) → Except String (List String)
  | [] => .ok []
  | (k, v) :: kvs => do
      let s ← f v
      let rest ← encodeEachKV f kvs
      .ok ((jsonEncodeString k ++ ": " ++ s) :: rest)

/-- `json.dumps`, recursion bounded by fuel: Python aborts deeply nested
serialization with `RecursionError` near the interpreter recursion limit, and
exhausted fuel models that error. A `UUID` or `datetime` value raises
`TypeError`, which is the behaviour every claim about the harmonize render
turns on. -/
def jsonDumpsFuel : Nat → PyVal → Except String String
  | 0, _ => .error "RecursionError: maximum recursion depth exceeded"
  | _ + 1, .pystr s => .ok (jsonEncodeString s)
  | _ + 1, .pyint n => .ok (toString n)
  | _ + 1, .pynone => .ok "null"
  | _ + 1, .pyuuid _ => .error "Object of type UUID is not JSON serializable"
  | _ + 1, .pydatetime _ =>
      .error "Object of type datetime is not JSON serializable"
  | fuel + 1, .pylist xs => do
      let parts ← encodeEach (jsonDumpsFuel fuel) xs
      .ok ("[" ++ joinComma parts ++ "]")
  | fuel + 1, .pydict kvs => do
      let parts ← encodeEachKV (jsonDumpsFuel fuel) kvs
      .ok ("\x7b" ++ joinComma parts ++ "\x7d")

/-- `json.dumps` at the Python default recursion limit. -/
def json_dumps (v : PyVal) : Except String String :=
  jsonDumpsFuel 1000 v

/-- A `dict[str, str]` as a Python value. -/
def strDictVal (d : StrDict) : PyVal :=
  .pydict (d.map fun kv => (kv.1, PyVal.pystr kv.2))

/-- Pydantic `model_dump()` of an `AnalysisResult` (python mode): field order
is declaration order and `datetime` stays a `datetime` object. -/
def AnalysisResult.model_dump (r : AnalysisResult) : PyVal :=
  .pydict
    [("step", .pystr r.step.value),
     ("summary", .pystr r.summary),
     ("details", strDictVal r.details),
     ("timestamp", .pydatetime r.timestamp)]

/-- Pydantic `model_dump()` of a `TokenUsage`; the `cost_usd` float is `0.0`
at every construction site in the source. -/
def TokenUsage.model_dump (u : TokenUsage) : PyVal :=
  .pydict
    [("prompt_tokens", .pyint u.prompt_tokens),
     ("completion_tokens", .pyint u.completion_tokens),
     ("cached_tokens", .pyint u.cached_tokens),
     ("cost_usd", .pyint 0)]

/-- Pydantic `model_dump()` of a `PromptSession` (python mode): field order is
declaration order, and `session_id` / `created_at` remain `UUID` / `datetime`
objects rather than strings. -/
def PromptSession.model_dump (s : PromptSession) : PyVal :=
  .pydict
    [("session_id", .pyuuid s.session_id),
     ("created_at", .pydatetime s.created_at),
     ("current_step", .pystr s.current_step.value),
     ("completed_steps",
        .pylist (s.completed_steps.map fun st => PyVal.pystr st.value)),
     ("parameters", strDictVal s.parameters),
     ("analysis_history",
        .pylist (s.analysis_history.map AnalysisResult.model_dump)),
     ("token_usage",
        match s.token_usage with
        | none => .pynone
        | some u => u.model_dump)]

/-! ### `PromptManager` (`prompts/manager.py`) -/

/-- Break a character stream into maximal runs of non-separator characters,
dropping empty runs, like Python `str.split()` with no argument. -/
def splitRuns (isSep : Char → Bool) : List Char → List Char → List (List Char)
  | [], acc => if acc = [] then [] else [acc.reverse]
  | c :: cs, acc =>
      if isSep c then
        if acc = [] then splitRuns isSep cs []
        else acc.reverse :: splitRuns isSep cs []
      else splitRuns isSep cs (c :: acc)

/-- Python `str.split()`: whitespace-run splitting with empties dropped. -/
def pySplit (s : String) : List String :=
  (splitRuns Char.isWhitespace s.data []).map String.mk

/-- Uppercase the first character of a word; the words this is applied to are
lowercase ASCII, for which this agrees with Python `str.title()`. -/
def capitalizeRun : List Char → List Char
  | [] => []
  | c :: cs => c.toUpper :: cs

/-- Python `step.value.replace("_", " ").title()` on the space-separated
lowercase step labels of this repository. -/
def pyTitle (s : String) : String :=
  String.intercalate " "
    (((splitRuns (fun c => c = ' ')
        (s.data.map fun c => if c = '_' then ' ' else c) []).map
      capitalizeRun).map String.mk)

/-- `PromptManager.render_analyze_step`: substitute into the
`analyze_step_template` Jinja2 template. The `tojson` filter is plain
`json.dumps`, the only fallible part; the `default("None provided", true)`
filter replaces a missing or empty feedback value. Whitespace layout of the
template text is simplified; no caller inspects the rendered text. -/
def render_analyze_step (step : OptimizationStep) (user_prompt : String)
    (session : PromptSession) (feedback : Option String) :
    Except String String := do
  let step_label := pyTitle step.value
  let params_json ← json_dumps (strDictVal session.parameters)
  let feedback_text :=
    match feedback with
    | none => "None provided"
    | some f => if f = "" then "None provided" else f
  .ok ("You are assisting with the prompt optimization process.\n"
    ++ "Evaluate and expand the \"" ++ step_label
    ++ "\" dimension of the prompt.\n\n"
    ++ "Draft prompt:\n" ++ user_prompt ++ "\n\n"
    ++ "Previously collected parameters:\n" ++ params_json ++ "\n\n"
    ++ "Additional guidance from the operator (optional):\n"
    ++ feedback_text ++ "\n\n"
    ++ "Respond with a concise recommendation for the " ++ step_label
    ++ " and\ninclude a short justification. Keep the answer plain text.")

/-- `PromptManager.render_global_harmonize`: substitute
`session.model_dump()` through the `tojson` filter into the
`global_harmonize_template`. -/
def render_global_harmonize (session : PromptSession) :
    Except String String := do
  let state_json ← json_dumps session.model_dump
  .ok ("You are the final reviewer for an optimized prompt.\n"
    ++ "Given the session state below, harmonize the components into a"
    ++ " single,\ncoherent prompt ready for execution. Resolve any"
    ++ " inconsistencies and\npreserve the intent of the user.\n\n"
    ++ "Session state (JSON):\n" ++ state_json ++ "\n\n"
    ++ "Return the harmonized prompt as polished Markdown. Include a brief"
    ++ " note\nexplaining the key changes you applied to ensure consistency.")

/-! ### LLM clients (`llm/client.py`) -/

/-- The backend capability consumed by the engine and the harmonizer:
`generate(prompt, step)` returning response text or raising. Token
accounting, which the engine never reads, is modelled separately per client
below. -/
def Gen : Type :=
  String → Option OptimizationStep → Except String String

/-- Python `len(prompt.split())`. -/
def pyWordCount (s : String) : Nat :=
  (pySplit s).length

/-- The private counters of a `MockLLMClient` instance, zero at
construction. -/
structure MockClientState where
  prompt_tokens : Nat := 0
  completion_tokens : Nat := 0
  cached_tokens : Nat := 0
deriving DecidableEq, Repr

/-- `MockLLMClient.generate`: accumulate word-count token telemetry into the
instance counters and return the fixed per-step response text. -/
def mock_generate (st : MockClientState) (prompt : String)
    (step : Option OptimizationStep) : MockClientState × String :=
  let prompt_tokens := pyWordCount prompt
  let completion_tokens := max 1 (prompt_tokens / 2)
  ({ prompt_tokens := st.prompt_tokens + prompt_tokens,
     completion_tokens := st.completion_tokens + completion_tokens,
     cached_tokens := st.cached_tokens },
   "[MOCK] Response for "
     ++ (match step with
         | some s => s.value
         | none => "general")
     ++ ": synthesized output based on prompt.")

/-- `MockLLMClient.get_token_usage`. -/
def mock_get_token_usage (st : MockClientState) : TokenUsage :=
  { prompt_tokens := st.prompt_tokens,
    completion_tokens := st.completion_tokens,
    cached_tokens := st.cached_tokens }

/-- Run a sequence of `MockLLMClient.generate` calls on one instance,
returning the final counter state. -/
def mock_run (calls : List (String × Option OptimizationStep)) :
    MockClientState :=
  calls.foldl (fun st c => (mock_generate st c.1 c.2).1) {}

/-- The mock client as a `Gen` for the engine-level claims: it never raises
and its response depends only on the step hint. -/
def mockGen : Gen :=
  fun prompt step => .ok (mock_generate {} prompt step).2

/-- What the OpenAI chat completion endpoint reports back for one call:
message content plus optional usage `(prompt_tokens, completion_tokens)`. -/
structure OpenAIResponse where
  content : String
  usage : Option (Nat × Nat)

/-- `OpenAILLMClient.generate`, with the network call abstracted into the
`resp` input: the instance `_usage` is REPLACED by a fresh `TokenUsage` built
from this single response. -/
def openai_generate (_usage : TokenUsage) (resp : OpenAIResponse) :
    TokenUsage × String :=
  let prompt_tokens := match resp.usage with | some u => u.1 | none => 0
  let completion_tokens := match resp.usage with | some u => u.2 | none => 0
  ({ prompt_tokens := prompt_tokens,
     completion_tokens := completion_tokens,
     cached_tokens := 0 },
   resp.content)

/-- Run a sequence of `OpenAILLMClient.generate` calls on one instance
(initial `_usage = TokenUsage()`), returning what `get_token_usage` then
reports. -/
def openai_run (responses : List OpenAIResponse) : TokenUsage :=
  responses.foldl (fun u r => (openai_generate u r).1) {}

/-- The `usage_metadata` of a Gemini response. -/
structure GeminiUsageMetadata where
  prompt_token_count : Nat
  candidates_token_count : Nat
  total_token_count : Nat
deriving DecidableEq, Repr

/-- What the Gemini endpoint reports back for one call. -/
structure GeminiResponse where
  text : String
  usage_metadata : Option GeminiUsageMetadata

/-- `GeminiLLMClient.generate`, with the network call abstracted into the
`resp` input: the instance `_usage` is REPLACED from this single response;
`max(total - (prompt + candidates), 0)` is `Nat` truncated subtraction. -/
def gemini_generate (_usage : TokenUsage) (resp : GeminiResponse) :
    TokenUsage × String :=
  match resp.usage_metadata with
  | none => ({}, resp.text)
  | some m =>
      ({ prompt_tokens := m.prompt_token_count,
         completion_tokens := m.candidates_token_count,
         cached_tokens :=
           m.total_token_count
             - (m.prompt_token_count + m.candidates_token_count) },
       resp.text)

/-- Run a sequence of `GeminiLLMClient.generate` calls on one instance,
returning what `get_token_usage` then reports. -/
def gemini_run (responses : List GeminiResponse) : TokenUsage :=
  responses.foldl (fun u r => (gemini_generate u r).1) {}

/-! ### Stage engine (`state_machine/engine.py`) and harmonizer
(`pipelines/harmonizer.py`)

Each operation returns the post-call session state in the first component
(the in-place mutations the Python code performed before returning or
raising) and, in the second, either the value `return`ed to the caller or the
propagated exception. -/

/-- `PromptOptimizerEngine.process_step`: render, generate, wrap the response
as an `AnalysisResult`, then write `session.parameters[step.value]`, call
`session.record_analysis`, and return the session itself. -/
def process_step (gen : Gen) (session : PromptSession)
    (step : OptimizationStep) (user_prompt : String)
    (feedback : Option String) :
    PromptSession × Except String PromptSession :=
  match render_analyze_step step user_prompt session feedback with
  | .error e => (session, .error e)
  | .ok prompt =>
      match gen prompt (some step) with
      | .error e => (session, .error e)
      | .ok response =>
          let analysis_result : AnalysisResult :=
            { step := step,
              summary := response,
              details := [("suggestion", response), ("prompt", prompt)] }
          let session :=
            { session with
              parameters := dset session.parameters step.value response }
          let session := session.record_analysis analysis_result
          (session, .ok session)

/-- `GlobalHarmonizer.harmonize`: render the whole-session prompt, generate
once, record a `harmonization` entry, write `parameters["final_output"]`,
record a `final_output` entry, and return the session. -/
def harmonize (gen : Gen) (session : PromptSession) :
    PromptSession × Except String PromptSession :=
  match render_global_harmonize session with
  | .error e => (session, .error e)
  | .ok harmonize_prompt =>
      match gen harmonize_prompt (some .harmonization) with
      | .error e => (session, .error e)
      | .ok response =>
          let harmonization_result : AnalysisResult :=
            { step := .harmonization,
              summary := "Harmonized the prompt based on the full session state.",
              details := [("harmonized_prompt", response)] }
          let session := session.record_analysis harmonization_result
          let final_output_result : AnalysisResult :=
            { step := .final_output,
              summary := "Final optimized prompt ready for use.",
              details := [("final_prompt", response)] }
          let session :=
            { session with
              parameters :=
                dset session.parameters OptimizationStep.final_output.value
                  response }
          let session := session.record_analysis final_output_result
          (session, .ok session)

/-! ### The CLI driver loop (`optimizer.py`) -/

/-- The fixed `steps_to_run` list of `run_cli`. -/
def steps_to_run : List OptimizationStep :=
  [.user_intent, .role, .objective, .context, .audience, .key_points,
   .constraints, .output]

/-- Run one `process_step` attempt per script entry (a step and the optional
operator feedback threaded into that attempt), keeping the post-call session
each time, as the `run_cli` stage loop does. -/
def run_steps (gen : Gen) (user_prompt : String)
    (script : List (OptimizationStep × Option String))
    (session : PromptSession) : PromptSession :=
  script.foldl (fun s att => (process_step gen s att.1 user_prompt att.2).1)
    session

/-- Every session state observed while running a script: the state before the
first attempt and the state after each attempt. -/
def run_trace (gen : Gen) (user_prompt : String)
    (script : List (OptimizationStep × Option String))
    (session : PromptSession) : List PromptSession :=
  match script with
  | [] => [session]
  | att :: rest =>
      session ::
        run_trace gen user_prompt rest
          (process_step gen session att.1 user_prompt att.2).1

/-- First-occurrence deduplication relative to an already-seen set. Applied
with an empty seen set this is the spec reading of `completed_steps`: each
stage identifier at most once, in the order first recorded. -/
def dedupFirstAux (seen : List OptimizationStep) :
    List OptimizationStep → List OptimizationStep
  | [] => []
  | x :: xs =>
      if x ∈ seen then dedupFirstAux seen xs
      else x :: dedupFirstAux (x :: seen) xs

/-- Concrete sessions and backends used by the concrete theorems below.
`run_cli` constructs the session as
`PromptSession(parameters={"draft_prompt": raw_prompt})`. -/
def demoSession : PromptSession :=
  { parameters := [("draft_prompt", "Summarize my notes")] }

/-- A backend whose response text is distinctive, standing for a candidate
the operator goes on to reject. -/
def candidateGen : Gen :=
  fun _ _ => .ok "REJECTED CANDIDATE TEXT"

/-- A backend that raises on every call. -/
def failGen : Gen :=
  fun _ _ => .error "boom"

/-- The session after driving all 8 stages once each through the engine. -/
def fullSession : PromptSession :=
  run_steps mockGen "Summarize my notes"
    (steps_to_run.map fun st => (st, none)) demoSession

/-! ### Supporting lemmas -/

/-- Serializing a string-to-string dict through `json.dumps` succeeds. -/
lemma encodeEachKV_pystr_ok (fuel : Nat) (d : StrDict) :
    encodeEachKV (jsonDumpsFuel (fuel + 1))
      (d.map fun kv => (kv.1, PyVal.pystr kv.2))
      = .ok (d.map fun kv => jsonEncodeString kv.1 ++ ": " ++ jsonEncodeString kv.2) := by
  induction d with
  | nil => rfl
  | cons kv rest ih =>
      simp only [List.map_cons, encodeEachKV, jsonDumpsFuel, ih]
      rfl

/-- `json.dumps` on a string-to-string dict returns the braced encoding. -/
lemma json_dumps_strDictVal (d : StrDict) :
    json_dumps (strDictVal d)
      = .ok ("\x7b"
          ++ joinComma
              (d.map fun kv =>
                jsonEncodeString kv.1 ++ ": " ++ jsonEncodeString kv.2)
          ++ "\x7d") := by
  show jsonDumpsFuel (999 + 1) (strDictVal d) = _
  simp only [strDictVal, jsonDumpsFuel, encodeEachKV_pystr_ok]
  rfl

/-- The stage render is total: it raises on no input, because the only
fallible part is `json.dumps` on the string-valued parameter dict. -/
lemma render_analyze_step_ok (step : OptimizationStep) (user_prompt : String)
    (session : PromptSession) (feedback : Option String) :
    ∃ text, render_analyze_step step user_prompt session feedback = .ok text := by
  simp only [render_analyze_step, json_dumps_strDictVal]
  exact ⟨_, rfl⟩

/-- The harmonize render raises `TypeError` on every session: the first entry
of `model_dump()` is the `UUID` object `session_id`, which `json.dumps`
rejects. -/
lemma render_global_harmonize_raises (session : PromptSession) :
    render_global_harmonize session
      = .error "Object of type UUID is not JSON serializable" := rfl

/-- `harmonize` raises before reaching the backend and leaves the session
untouched, for every backend and every session. -/
lemma harmonize_raises (gen : Gen) (session : PromptSession) :
    harmonize gen session
      = (session, .error "Object of type UUID is not JSON serializable") := rfl

/-- When the backend raises on every call, `process_step` propagates that
error and leaves the session unchanged. -/
lemma process_step_of_gen_fail (gen : Gen) (e : String)
    (hgen : ∀ p st, gen p st = .error e) (s : PromptSession)
    (step : OptimizationStep) (up : String) (fb : Option String) :
    process_step gen s step up fb = (s, .error e) := by
  obtain ⟨t, ht⟩ := render_analyze_step_ok step up s fb
  simp only [process_step, ht, hgen]

/-- After a `process_step` call, the session is either untouched (the backend
raised) or its `current_step` is the processed step (the result was
recorded). -/
lemma process_step_fst_cases (gen : Gen) (s : PromptSession)
    (step : OptimizationStep) (up : String) (fb : Option String) :
    (process_step gen s step up fb).1 = s
      ∨ (process_step gen s step up fb).1.current_step = step := by
  obtain ⟨t, ht⟩ := render_analyze_step_ok step up s fb
  simp only [process_step, ht]
  cases gen t (some step) with
  | error e => exact Or.inl rfl
  | ok response => exact Or.inr rfl

/-- A run trace is never empty and starts at the initial session. -/
lemma run_trace_head (gen : Gen) (up : String)
    (script : List (OptimizationStep × Option String)) (s : PromptSession) :
    (run_trace gen up script s).head? = some s := by
  cases script <;> rfl

/-- The observed `current_step` values along a run whose script follows the
fixed stage order form an ascending chain. -/
lemma run_trace_chain (gen : Gen) (up : String) :
    ∀ (script : List (OptimizationStep × Option String)) (s : PromptSession),
      List.Chain' (fun a b => a.idx ≤ b.idx)
        (s.current_step :: script.map Prod.fst) →
      List.Chain' (fun a b : PromptSession =>
          a.current_step.idx ≤ b.current_step.idx)
        (run_trace gen up script s)
  | [], s, _ => by simp [run_trace]
  | att :: rest, s, h => by
      rw [List.map_cons, List.chain'_cons'] at h
      obtain ⟨hhead, hchain⟩ := h
      have hlink : s.current_step.idx ≤ att.1.idx := hhead _ rfl
      rw [List.chain'_cons'] at hchain
      obtain ⟨hfirst, hrest⟩ := hchain
      have hnext :
          List.Chain' (fun a b => a.idx ≤ b.idx)
            ((process_step gen s att.1 up att.2).1.current_step
              :: rest.map Prod.fst) := by
        rcases process_step_fst_cases gen s att.1 up att.2 with hsame | hstep
        · rw [hsame]
          rw [List.chain'_cons']
          refine ⟨fun y hy => ?_, hrest⟩
          exact le_trans hlink (hfirst y hy)
        · rw [hstep]
          rw [List.chain'_cons']
          exact ⟨hfirst, hrest⟩
      have htail :=
        run_trace_chain gen up rest (process_step gen s att.1 up att.2).1 hnext
      show List.Chain' _
        (s :: run_trace gen up rest (process_step gen s att.1 up att.2).1)
      rw [List.chain'_cons']
      refine ⟨fun y hy => ?_, htail⟩
      rw [run_trace_head] at hy
      cases hy
      rcases process_step_fst_cases gen s att.1 up att.2 with hsame | hstep
      · rw [hsame]
      · rw [hstep]
        exact hlink

/-- `dedupFirstAux` only looks at the membership of the seen set. -/
lemma dedupFirstAux_congr :
    ∀ (l : List OptimizationStep) (seen₁ seen₂ : List OptimizationStep),
      (∀ x, x ∈ seen₁ ↔ x ∈ seen₂) →
      dedupFirstAux seen₁ l = dedupFirstAux seen₂ l
  | [], _, _, _ => rfl
  | x :: xs, seen₁, seen₂, h => by
      simp only [dedupFirstAux]
      by_cases hx : x ∈ seen₁
      · rw [if_pos hx, if_pos ((h x).mp hx)]
        exact dedupFirstAux_congr xs seen₁ seen₂ h
      · rw [if_neg hx, if_neg (fun hc => hx ((h x).mpr hc))]
        refine congrArg (x :: ·) (dedupFirstAux_congr xs _ _ fun y => ?_)
        simp only [List.mem_cons]
        exact or_congr Iff.rfl (h y)

/-- Elements produced by `dedupFirstAux` avoid the seen set, come from the
input, and are duplicate-free. -/
lemma dedupFirstAux_spec :
    ∀ (l seen : List OptimizationStep),
      (dedupFirstAux seen l).Nodup
        ∧ (∀ x ∈ dedupFirstAux seen l, x ∉ seen ∧ x ∈ l)
  | [], _ => ⟨List.nodup_nil, by simp [dedupFirstAux]⟩
  | x :: xs, seen => by
      simp only [dedupFirstAux]
      by_cases hx : x ∈ seen
      · rw [if_pos hx]
        obtain ⟨hnd, hmem⟩ := dedupFirstAux_spec xs seen
        exact ⟨hnd, fun y hy => ⟨(hmem y hy).1, List.mem_cons_of_mem x (hmem y hy).2⟩⟩
      · rw [if_neg hx]
        obtain ⟨hnd, hmem⟩ := dedupFirstAux_spec xs (x :: seen)
        refine ⟨List.nodup_cons.mpr ⟨fun hc => ?_, hnd⟩, fun y hy => ?_⟩
        · exact (hmem x hc).1 (List.mem_cons_self x seen)
        · rcases List.mem_cons.mp hy with rfl | hy'
          · exact ⟨hx, List.mem_cons_self y xs⟩
          · exact ⟨fun hc => (hmem y hy').1 (List.mem_cons_of_mem x hc),
              List.mem_cons_of_mem x (hmem y hy').2⟩

/-- `dedupFirstAux` never lengthens its input. -/
lemma dedupFirstAux_length :
    ∀ (l seen : List OptimizationStep),
      (dedupFirstAux seen l).length ≤ l.length
  | [], _ => Nat.le_refl 0
  | x :: xs, seen => by
      simp only [dedupFirstAux]
      by_cases hx : x ∈ seen
      · rw [if_pos hx]
        exact Nat.le_succ_of_le (dedupFirstAux_length xs seen)
      · rw [if_neg hx]
        simpa using Nat.succ_le_succ (dedupFirstAux_length xs (x :: seen))

/-- `record_all` appends exactly the recorded results to the history. -/
lemma record_all_history :
    ∀ (rs : List AnalysisResult) (s : PromptSession),
      (s.record_all rs).analysis_history = s.analysis_history ++ rs
  | [], s => by simp [PromptSession.record_all]
  | r :: rs, s => by
      show (PromptSession.record_all _ rs).analysis_history = _
      rw [record_all_history rs]
      simp [PromptSession.record_analysis]

/-- `record_all` extends `completed_steps` with exactly the first occurrences
of the newly recorded steps, in recording order. -/
lemma record_all_completed :
    ∀ (rs : List AnalysisResult) (s : PromptSession),
      (s.record_all rs).completed_steps
        = s.completed_steps
            ++ dedupFirstAux s.completed_steps (rs.map AnalysisResult.step)
  | [], s => by simp [PromptSession.record_all, dedupFirstAux]
  | r :: rs, s => by
      show (PromptSession.record_all _ rs).completed_steps = _
      rw [record_all_completed rs]
      simp only [PromptSession.record_analysis, List.map_cons, dedupFirstAux]
      by_cases hr : r.step ∈ s.completed_steps
      · rw [if_pos hr, if_pos hr]
      · rw [if_neg hr, if_neg hr, List.append_assoc, List.singleton_append]
        refine congrArg (s.completed_steps ++ r.step :: ·) ?_
        refine dedupFirstAux_congr _ _ _ fun y => ?_
        simp [or_comm]

/-! ### Claims -/

/-- Claim C1: the spec states that `process_step` returns the generated
candidate without committing it, leaving `parameters`, `analysis_history` and
`current_step` unchanged. The code does the opposite: evaluated at a fresh
session, one `process_step` call has already appended to `analysis_history`,
written `parameters["user_intent"]`, advanced the tracking metadata, and its
return value is the mutated session itself rather than the candidate. -/
theorem c1_process_step_commits_before_return :
    demoSession.analysis_history = []
      ∧ dget demoSession.parameters "user_intent" = none
      ∧ (process_step mockGen demoSession .user_intent "Summarize my notes"
            none).1.analysis_history.length = 1
      ∧ (process_step mockGen demoSession .user_intent "Summarize my notes"
            none).1.completed_steps = [.user_intent]
      ∧ dget (process_step mockGen demoSession .user_intent "Summarize my notes"
            none).1.parameters "user_intent"
          = some "[MOCK] Response for user_intent: synthesized output based on prompt."
      ∧ (process_step mockGen demoSession .user_intent "Summarize my notes"
            none).2
          = .ok (process_step mockGen demoSession .user_intent
              "Summarize my notes" none).1 :=
  ⟨rfl, rfl, rfl, rfl, rfl, rfl⟩

/-- Claim C2: the spec states that `parameters` never contains text from a
candidate that was not committed by the human accept step. In the code,
`process_step` itself writes every generated candidate into
`session.parameters[step.value]` and records it into `analysis_history`
before any accept/reject decision is taken, so a candidate the operator goes
on to reject has already entered the parameters map. -/
theorem c2_uncommitted_candidate_enters_parameters :
    dget (process_step candidateGen demoSession .user_intent
        "Summarize my notes" none).1.parameters "user_intent"
      = some "REJECTED CANDIDATE TEXT"
    ∧ (process_step candidateGen demoSession .user_intent
          "Summarize my notes" none).1.analysis_history.map
        AnalysisResult.summary
      = ["REJECTED CANDIDATE TEXT"] :=
  ⟨rfl, rfl⟩

/-- Claim C3: the spec states that a successful `harmonize` appends a
`harmonization` and a `final_output` history entry and writes
`parameters["final_output"]`. The code never reaches those commits: even on
a session with all 8 stages completed, the harmonize render raises
`TypeError` (the `tojson` filter is plain `json.dumps`, and
`model_dump()` contains the non-serializable `UUID` object `session_id`), so
`harmonize` raises, commits nothing, and no `final_output` parameter is ever
produced. -/
theorem c3_harmonize_raises_on_full_session :
    fullSession.completed_steps = steps_to_run
    ∧ harmonize mockGen fullSession
        = (fullSession, .error "Object of type UUID is not JSON serializable")
    ∧ dget fullSession.parameters "final_output" = none :=
  ⟨rfl, rfl, rfl⟩

/-- Claim C4: the spec states that calling `harmonize` on a session with zero
completed stages succeeds mechanically and that the harmonize render is a
total function. In the code the render raises `TypeError` on every session,
a fresh one included, because `json.dumps` rejects the `UUID` and `datetime`
objects that `model_dump()` leaves in the dumped state. -/
theorem c4_harmonize_render_raises_on_fresh_session :
    demoSession.completed_steps = []
    ∧ render_global_harmonize demoSession
        = .error "Object of type UUID is not JSON serializable"
    ∧ harmonize mockGen demoSession
        = (demoSession,
            .error "Object of type UUID is not JSON serializable") :=
  ⟨rfl, rfl, rfl⟩

/-- Claim C5: if the backend raises, the exception propagates to the caller
and the session is left exactly in its pre-call state. For `process_step`
the render always succeeds, the backend error is returned unmodified and the
session is untouched. For `harmonize` the call raises even earlier (in the
render, before the backend is reached) and the session is likewise untouched,
so atomicity on failure holds for both operations. -/
theorem c5_backend_failure_is_atomic (gen : Gen) (e : String)
    (hgen : ∀ p st, gen p st = .error e) (s : PromptSession)
    (step : OptimizationStep) (up : String) (fb : Option String) :
    process_step gen s step up fb = (s, .error e)
    ∧ (harmonize gen s).1 = s
    ∧ ∃ msg, (harmonize gen s).2 = .error msg :=
  ⟨process_step_of_gen_fail gen e hgen s step up fb,
   by rw [harmonize_raises],
   ⟨_, by rw [harmonize_raises]⟩⟩

/-- Witness for claim C5 at a concrete failing backend and session. -/
theorem c5_backend_failure_is_atomic_witness :
    (∀ p st, failGen p st = .error "boom")
    ∧ (process_step failGen demoSession .user_intent "Summarize my notes" none
          = (demoSession, .error "boom")
        ∧ (harmonize failGen demoSession).1 = demoSession
        ∧ ∃ msg, (harmonize failGen demoSession).2 = .error msg) :=
  ⟨fun _ _ => rfl,
   c5_backend_failure_is_atomic failGen "boom" (fun _ _ => rfl) demoSession
     .user_intent "Summarize my notes" none⟩

/-- Claim C6: the spec states that token usage starts at zero and accumulates
additively across `generate` calls on every client. That holds for the mock
client, but the OpenAI and Gemini clients replace their `_usage` with a fresh
`TokenUsage` built from the latest response alone: after calls reporting 3
then 5 prompt tokens, `get_token_usage` reports 5, not 8. -/
theorem c6_hosted_usage_overwritten_not_accumulated :
    mock_get_token_usage (mock_run []) = ({} : TokenUsage)
    ∧ mock_run [("one two three", some .user_intent), ("four five", none)]
        = { prompt_tokens := 5, completion_tokens := 2, cached_tokens := 0 }
    ∧ openai_run [] = ({} : TokenUsage)
    ∧ openai_run [⟨"first", some (3, 2)⟩, ⟨"second", some (5, 1)⟩]
        = { prompt_tokens := 5, completion_tokens := 1, cached_tokens := 0 }
    ∧ (openai_run [⟨"first", some (3, 2)⟩,
          ⟨"second", some (5, 1)⟩]).prompt_tokens ≠ 3 + 5
    ∧ gemini_run [⟨"first", some ⟨3, 2, 6⟩⟩, ⟨"second", some ⟨5, 1, 6⟩⟩]
        = { prompt_tokens := 5, completion_tokens := 1, cached_tokens := 0 } :=
  ⟨rfl, rfl, rfl, rfl, by decide, rfl⟩

/-- Claim C7: the spec states that N accepted stages plus one successful
harmonization leave `analysis_history` of length N + 2. After N = 1 stage
the history has length 1, but `harmonize` raises before committing anything,
so the history stays at length 1, never reaching N + 2 = 3; no run with a
successful harmonize exists. -/
theorem c7_history_short_of_claimed_length :
    (run_steps mockGen "Summarize my notes" [(.user_intent, none)]
        demoSession).analysis_history.length = 1
    ∧ (harmonize mockGen (run_steps mockGen "Summarize my notes"
          [(.user_intent, none)] demoSession)).2
        = .error "Object of type UUID is not JSON serializable"
    ∧ (harmonize mockGen (run_steps mockGen "Summarize my notes"
          [(.user_intent, none)] demoSession)).1.analysis_history.length
        ≠ 1 + 2 :=
  ⟨rfl, rfl, by decide⟩

/-- Claim C8: along any run whose attempt script follows the fixed stage
order (repeating a stage for rejection retries), every observed
`current_step` is at least as late in the order as every previously observed
one, and the final harmonize attempt does not move `current_step` backwards
either. -/
theorem c8_current_step_monotone (gen : Gen) (up : String)
    (script : List (OptimizationStep × Option String)) (s : PromptSession)
    (h : List.Chain' (fun a b => a.idx ≤ b.idx)
        (s.current_step :: script.map Prod.fst)) :
    List.Pairwise (fun a b => a.idx ≤ b.idx)
      ((run_trace gen up script s).map PromptSession.current_step)
    ∧ (harmonize gen (run_steps gen up script s)).1.current_step
        = (run_steps gen up script s).current_step := by
  constructor
  · have hch := run_trace_chain gen up script s h
    rw [List.pairwise_map]
    haveI : IsTrans PromptSession
        (fun a b => a.current_step.idx ≤ b.current_step.idx) :=
      ⟨fun _ _ _ hab hbc => le_trans hab hbc⟩
    exact List.chain'_iff_pairwise.mp hch
  · rw [harmonize_raises]

/-- Witness for claim C8 at a concrete run: the first stage is generated,
rejected once (retried with feedback), then the next stage is generated. -/
theorem c8_current_step_monotone_witness :
    List.Chain' (fun a b => a.idx ≤ b.idx)
      (demoSession.current_step
        :: ([((.user_intent : OptimizationStep), (none : Option String)),
            (.user_intent, some "focus on deadlines"),
            (.role, none)].map Prod.fst))
    ∧ (List.Pairwise (fun a b => a.idx ≤ b.idx)
        ((run_trace mockGen "Summarize my notes"
            [((.user_intent : OptimizationStep), (none : Option String)),
             (.user_intent, some "focus on deadlines"),
             (.role, none)] demoSession).map PromptSession.current_step)
      ∧ (harmonize mockGen (run_steps mockGen "Summarize my notes"
            [((.user_intent : OptimizationStep), (none : Option String)),
             (.user_intent, some "focus on deadlines"),
             (.role, none)] demoSession)).1.current_step
          = (run_steps mockGen "Summarize my notes"
              [((.user_intent : OptimizationStep), (none : Option String)),
               (.user_intent, some "focus on deadlines"),
               (.role, none)] demoSession).current_step) :=
  ⟨by
    show List.Chain (fun a b => a.idx ≤ b.idx) demoSession.current_step
      [.user_intent, .user_intent, .role]
    exact .cons (by decide) (.cons (by decide) (.cons (by decide) .nil)),
   c8_current_step_monotone mockGen "Summarize my notes"
     [(.user_intent, none), (.user_intent, some "focus on deadlines"),
      (.role, none)] demoSession
     (by
       show List.Chain (fun a b => a.idx ≤ b.idx) demoSession.current_step
         [.user_intent, .user_intent, .role]
       exact .cons (by decide) (.cons (by decide) (.cons (by decide) .nil)))⟩

/-- Claim C9: any sequence of `record_analysis` calls preserves the two
structural invariants, duplicate-free `completed_steps` and a history at
least as long as `completed_steps`, and extends `completed_steps` with
exactly the first occurrences of the newly recorded steps in recording
order. -/
theorem c9_record_analysis_invariants (s : PromptSession)
    (rs : List AnalysisResult) (hnodup : s.completed_steps.Nodup)
    (hlen : s.completed_steps.length ≤ s.analysis_history.length) :
    (s.record_all rs).completed_steps.Nodup
    ∧ (s.record_all rs).completed_steps.length
        ≤ (s.record_all rs).analysis_history.length
    ∧ (s.record_all rs).completed_steps
        = s.completed_steps
            ++ dedupFirstAux s.completed_steps (rs.map AnalysisResult.step) := by
  have hc := record_all_completed rs s
  have hh := record_all_history rs s
  obtain ⟨hnd, hmem⟩ :=
    dedupFirstAux_spec (rs.map AnalysisResult.step) s.completed_steps
  refine ⟨?_, ?_, hc⟩
  · rw [hc, List.nodup_append]
    exact ⟨hnodup, hnd, fun x hx hx' => (hmem x hx').1 hx⟩
  · rw [hc, hh, List.length_append, List.length_append]
    have h1 :=
      dedupFirstAux_length (rs.map AnalysisResult.step) s.completed_steps
    rw [List.length_map] at h1
    omega

/-- Witness for claim C9 at a fresh session and a recording sequence that
repeats a step. -/
theorem c9_record_analysis_invariants_witness :
    demoSession.completed_steps.Nodup
    ∧ demoSession.completed_steps.length
        ≤ demoSession.analysis_history.length
    ∧ ((demoSession.record_all
          [⟨.user_intent, "a", [], 0⟩, ⟨.user_intent, "b", [], 0⟩,
           ⟨.role, "c", [], 0⟩]).completed_steps.Nodup
      ∧ (demoSession.record_all
            [⟨.user_intent, "a", [], 0⟩, ⟨.user_intent, "b", [], 0⟩,
             ⟨.role, "c", [], 0⟩]).completed_steps.length
          ≤ (demoSession.record_all
              [⟨.user_intent, "a", [], 0⟩, ⟨.user_intent, "b", [], 0⟩,
               ⟨.role, "c", [], 0⟩]).analysis_history.length
      ∧ (demoSession.record_all
            [⟨.user_intent, "a", [], 0⟩, ⟨.user_intent, "b", [], 0⟩,
             ⟨.role, "c", [], 0⟩]).completed_steps
          = demoSession.completed_steps
              ++ dedupFirstAux demoSession.completed_steps
                  (([⟨.user_intent, "a", [], 0⟩, ⟨.user_intent, "b", [], 0⟩,
                     ⟨.role, "c", [], 0⟩] : List AnalysisResult).map
                    AnalysisResult.step)) :=
  ⟨by decide, by decide,
   c9_record_analysis_invariants demoSession
     [⟨.user_intent, "a", [], 0⟩, ⟨.user_intent, "b", [], 0⟩,
      ⟨.role, "c", [], 0⟩] (by decide) (by decide)⟩

/-- Claim C10: the mock backend response text depends only on the step hint,
never on the prompt content or the accumulated counters; the prompt
influences only the token counters, which grow by the word-count telemetry of
that call. -/
theorem c10_mock_response_prompt_independent (p₁ p₂ : String)
    (st₁ st₂ : MockClientState) (step : Option OptimizationStep) :
    (mock_generate st₁ p₁ step).2 = (mock_generate st₂ p₂ step).2
    ∧ (mock_generate st₁ p₁ step).1
        = { prompt_tokens := st₁.prompt_tokens + pyWordCount p₁,
            completion_tokens :=
              st₁.completion_tokens + max 1 (pyWordCount p₁ / 2),
            cached_tokens := st₁.cached_tokens } :=
  ⟨rfl, rfl⟩

end PromptOptimizer
